import Mathlib

/-!
Verification of the BlogNewsLetter repository: a newsletter-subscription
service with two adapters (a Flask HTTP server and an AWS Lambda handler)
over a pluggable subscriber store (`storage.py`).

The Python sources are shallowly embedded:
  * JSON values become the inductive `Json`;
  * `str.strip` / `str.lower` become `pyStrip` / `pyLower` (ASCII range,
    which covers every string the development evaluates);
  * the regex test in `is_valid_email` becomes an executable matcher for
    the concrete pattern of the source, including the host regex engine
    behaviour that the end anchor also matches just before one trailing
    newline;
  * the two `SubscriberStorage` implementations become explicit
    state-passing functions; an exception raised by the underlying
    DynamoDB client is modelled by a `raises` flag, since the methods
    catch every exception internally and convert it to `false`;
  * the adapters become total functions from a request model and a store
    state to a response, the successor state and the trace of store calls.
-/

/-- JSON-like Python values as handled by the service. -/
inductive Json where
  | null : Json
  | bool : Bool → Json
  | num : Int → Json
  | str : String → Json
  | arr : List Json → Json
  | obj : List (String × Json) → Json

/-- ASCII whitespace stripped by Python `str.strip()`. -/
def isPyWhitespace (c : Char) : Bool :=
  c == ' ' || c == '\t' || c == '\n' || c == '\r' || c == '\x0b' || c == '\x0c'

/-- Python `str.strip()`: drop leading and trailing whitespace. -/
def pyStrip (s : String) : String :=
  ⟨((s.data.dropWhile isPyWhitespace).reverse.dropWhile isPyWhitespace).reverse⟩

/-- Python `str.lower()` on one character (ASCII range). -/
def pyLowerChar (c : Char) : Char :=
  if 'A' ≤ c && c ≤ 'Z' then Char.ofNat (c.toNat + 32) else c

/-- Python `str.lower()` (ASCII range). -/
def pyLower (s : String) : String :=
  ⟨s.data.map pyLowerChar⟩

/-- `email.lower().strip()`, the normalisation both stores apply. -/
def pyNormalize (e : String) : String :=
  pyStrip (pyLower e)

/-- ASCII alphabetic character, the class written `[a-zA-Z]` in the source. -/
def isAsciiAlpha (c : Char) : Bool :=
  ('a' ≤ c && c ≤ 'z') || ('A' ≤ c && c ≤ 'Z')

/-- ASCII digit, `[0-9]`. -/
def isAsciiDigit (c : Char) : Bool :=
  '0' ≤ c && c ≤ '9'

/-- The local-part class `[a-zA-Z0-9._%+-]` of the source regex. -/
def isLocalChar (c : Char) : Bool :=
  isAsciiAlpha c || isAsciiDigit c || c == '.' || c == '_' || c == '%' || c == '+' || c == '-'

/-- The domain class `[a-zA-Z0-9.-]` of the source regex. -/
def isDomainChar (c : Char) : Bool :=
  isAsciiAlpha c || isAsciiDigit c || c == '.' || c == '-'

/-- The tail `[a-zA-Z]{2,}` of the source regex: two or more ASCII letters. -/
def matchTld (l : List Char) : Bool :=
  decide (2 ≤ l.length) && l.all isAsciiAlpha

/-- Matches `[a-zA-Z0-9.-]+\.[a-zA-Z]{2,}`: some split point gives a
non-empty all-domain-character prefix, a literal dot, and a TLD. -/
def matchDomain (l : List Char) : Bool :=
  (List.range l.length).any fun j =>
    !(l.take j).isEmpty && (l.take j).all isDomainChar &&
      (match l.drop j with
       | c :: t => c == '.' && matchTld t
       | [] => false)

/-- Matches the whole body `[a-zA-Z0-9._%+-]+@[a-zA-Z0-9.-]+\.[a-zA-Z]{2,}`. -/
def matchCore (l : List Char) : Bool :=
  (List.range l.length).any fun i =>
    !(l.take i).isEmpty && (l.take i).all isLocalChar &&
      (match l.drop i with
       | c :: ys => c == '@' && matchDomain ys
       | [] => false)

/-- The email grammar exactly as the specification words it: one or more
local characters, then `@`, then one or more domain characters, then a
literal dot, then two or more letters, nothing before or after. Stated
over the character list for comparison with the source matcher. -/
def EmailGrammar (l : List Char) : Prop :=
  ∃ xs ds ts, l = xs ++ '@' :: (ds ++ '.' :: ts) ∧ xs ≠ [] ∧ xs.all isLocalChar = true ∧
    ds ≠ [] ∧ ds.all isDomainChar = true ∧ 2 ≤ ts.length ∧ ts.all isAsciiAlpha = true

/-- `is_valid_email` from `flask_server.py` and `lambda_function.py`:
`re.match(pattern, email) is not None` for the anchored pattern above.
The host engine's `$` anchor matches at the end of the string or just
before one newline at the end, hence the second disjunct. -/
def is_valid_email (s : String) : Bool :=
  matchCore s.data ||
    (match s.data.getLast? with
     | some c => c == '\n' && matchCore s.data.dropLast
     | none => false)

/-- One record of the Volatile store: the dict value
`id / subscribed_at / status` stored under the normalised email key.
The uuid and the clock are modelled as naturals drawn from the state. -/
structure MemRecord where
  ident : Nat
  subscribedAt : Nat
  status : String
deriving Repr, DecidableEq

/-- State of `InMemoryStorage`: an insertion-ordered mapping from
normalised email to record, plus supplies for fresh uuids and the clock. -/
structure MemState where
  nextId : Nat
  clock : Nat
  subscribers : List (String × MemRecord)
deriving Repr, DecidableEq

/-- Python dict assignment `d[k] = v`: replace the value at an existing
key in place, otherwise append the binding. -/
def dictInsert {α : Type} (k : String) (v : α) : List (String × α) → List (String × α)
  | [] => [(k, v)]
  | (k₂, v₂) :: t => if k₂ == k then (k₂, v) :: t else (k₂, v₂) :: dictInsert k v t

/-- Python `k in d` for a dict. -/
def dictContains {α : Type} (k : String) (d : List (String × α)) : Bool :=
  d.any fun kv => kv.1 == k

namespace InMemoryStorage

/-- `InMemoryStorage.add_subscriber`: store a fresh record under the
normalised email and return `True`. -/
def add_subscriber (email : String) (st : MemState) : Bool × MemState :=
  (true,
    ⟨st.nextId + 1, st.clock,
      dictInsert (pyNormalize email) ⟨st.nextId, st.clock, "active"⟩ st.subscribers⟩)

/-- `InMemoryStorage.is_subscribed`: key membership of the normalised email. -/
def is_subscribed (email : String) (st : MemState) : Bool :=
  dictContains (pyNormalize email) st.subscribers

end InMemoryStorage

/-- One item of the DynamoDB table. -/
structure DItem where
  ident : Nat
  email : String
  subscribedAt : Nat
  status : String
deriving Repr, DecidableEq

/-- State of `DynamoDBStorage`: the table rows plus supplies for fresh
uuids and the clock. -/
structure DynamoState where
  nextId : Nat
  clock : Nat
  table : List DItem
deriving Repr, DecidableEq

namespace DynamoDBStorage

/-- `DynamoDBStorage.add_subscriber`: `put_item` of a fresh item whose
email attribute is normalised. `raises` models an exception from the
underlying client; the method catches it and returns `False`. -/
def add_subscriber (raises : Bool) (email : String) (st : DynamoState) : Bool × DynamoState :=
  if raises then (false, st)
  else
    (true,
      ⟨st.nextId + 1, st.clock,
        st.table ++ [⟨st.nextId, pyNormalize email, st.clock, "active"⟩]⟩)

/-- `DynamoDBStorage.is_subscribed`: scan filtering on equality of the
email attribute with the normalised email, then `len(items) > 0`.
`raises` models an exception from the underlying client; the method
catches it and returns `False`. -/
def is_subscribed (raises : Bool) (email : String) (st : DynamoState) : Bool :=
  if raises then false
  else decide (0 < (st.table.filter fun it => it.email == pyNormalize email).length)

end DynamoDBStorage

/-- Python substring containment `needle in hay`. -/
def pySubstr (needle hay : List Char) : Bool :=
  (List.range (hay.length + 1)).any fun i => needle.isPrefixOf (hay.drop i)

/-- Python `'k' in event` for a JSON-like value: key test on a dict,
element test on a list, substring test on a string; any other receiver
(`None`, numbers, booleans) raises `TypeError`, modelled as `.error`. -/
def pyContains (event : Json) (k : String) : Except Unit Bool :=
  match event with
  | .obj kvs => .ok (kvs.any fun kv => kv.1 == k)
  | .arr xs =>
    .ok (xs.any fun j =>
      match j with
      | .str t => t == k
      | _ => false)
  | .str s => .ok (pySubstr k.data s.data)
  | _ => .error ()

/-- Python `event['k']`: dict lookup (`KeyError` when absent); every
non-dict receiver raises `TypeError` on a string key. Both exceptions are
modelled as `.error`. -/
def pyGetItem (event : Json) (k : String) : Except Unit Json :=
  match event with
  | .obj kvs =>
    match kvs.find? (fun kv => kv.1 == k) with
    | some kv => .ok kv.2
    | none => .error ()
  | _ => .error ()

/-- Python `d.get('k')` on a dict entry list. -/
def pyDictGet (kvs : List (String × Json)) (k : String) : Option Json :=
  (kvs.find? fun kv => kv.1 == k).map (·.2)

/-- An opening brace as text. -/
def lbrace : String := "\x7b"

/-- A closing brace as text. -/
def rbrace : String := "\x7d"

/-- String escaping of Python `json.dumps` restricted to the escapes the
service can produce (quote, backslash and the common control characters;
`json.dumps` additionally u-escapes other controls and non-ASCII text,
which no message of the service contains). -/
def jsonEscapeChar (c : Char) : List Char :=
  if c == '"' then ['\\', '"']
  else if c == '\\' then ['\\', '\\']
  else if c == '\n' then ['\\', 'n']
  else if c == '\t' then ['\\', 't']
  else if c == '\r' then ['\\', 'r']
  else [c]

/-- Escape a whole string for JSON output. -/
def jsonEscape (s : String) : String :=
  ⟨s.data.foldr (fun c acc => jsonEscapeChar c ++ acc) []⟩

/-- Python `json.dumps` with its default separators. -/
def jsonDumps : Json → String
  | .null => "null"
  | .bool true => "true"
  | .bool false => "false"
  | .num n => toString n
  | .str s => "\"" ++ jsonEscape s ++ "\""
  | .arr xs =>
    "[" ++ String.intercalate ", " (xs.attach.map fun x => jsonDumps x.1) ++ "]"
  | .obj kvs =>
    lbrace ++
      String.intercalate ", "
        (kvs.attach.map fun kv => "\"" ++ jsonEscape kv.1.1 ++ "\": " ++ jsonDumps kv.1.2) ++
      rbrace
termination_by j => sizeOf j
decreasing_by
  · simp_wf
    have h := List.sizeOf_lt_of_mem x.2
    omega
  · simp_wf
    obtain ⟨⟨a, b⟩, hmem⟩ := kv
    have h := List.sizeOf_lt_of_mem hmem
    simp at h ⊢
    omega

/-- The JSON body `\x7b"error": msg\x7d` used by every error response. -/
def errObj (msg : String) : Json :=
  Json.obj [("error", Json.str msg)]

/-- The JSON body `\x7b"success": true, "message": msg\x7d` of the two
success responses. -/
def okObj (msg : String) : Json :=
  Json.obj [("success", Json.bool true), ("message", Json.str msg)]

/-- The store interface both adapters call: `is_subscribed` never
mutates state, `add_subscriber` may; an `.error` is an exception
propagating out of the store into the adapter's try block. -/
structure StoreIface (σ : Type) where
  isSub : String → σ → Except Unit Bool
  addSub : String → σ → Except Unit (Bool × σ)

/-- One store call made by an adapter, recorded for the side-effect claims. -/
inductive StoreCall where
  | isSub : String → StoreCall
  | addSub : String → StoreCall
deriving Repr, DecidableEq

/-- `InMemoryStorage` seen through the interface: neither method raises. -/
def memIface : StoreIface MemState :=
  ⟨fun e st => .ok (InMemoryStorage.is_subscribed e st),
   fun e st => .ok (InMemoryStorage.add_subscriber e st)⟩

/-- `DynamoDBStorage` seen through the interface: the methods catch every
client exception internally (modelled by the two flags), so they never
raise into the adapter. -/
def dynamoIface (addRaises scanRaises : Bool) : StoreIface DynamoState :=
  ⟨fun e st => .ok (DynamoDBStorage.is_subscribed scanRaises e st),
   fun e st => .ok (DynamoDBStorage.add_subscriber addRaises e st)⟩

/-- The inbound Flask request as the handler observes it: whether
`request.is_json` holds, and the result of `request.get_json()`
(`.error` for a `BadRequest` parse failure). -/
structure FlaskRequest where
  isJson : Bool
  body : Except Unit Json

/-- `subscribe_newsletter` from `flask_server.py`. Returns the response
(`none` when the view function falls off the end and returns no
response), the final store state and the trace of store calls. -/
def subscribe_newsletter {σ : Type} (S : StoreIface σ) (req : FlaskRequest) (st : σ) :
    Option (Json × Nat) × σ × List StoreCall :=
  if req.isJson = false then
    (some (errObj "Content-Type must be application/json", 415), st, [])
  else
    match req.body with
    | .error _ => (some (errObj "Invalid JSON format", 400), st, [])
    | .ok json_data =>
      match json_data with
      | .obj kvs =>
        match pyDictGet kvs "email" with
        | none => (some (errObj "Missing required field: email", 400), st, [])
        | some (.str email) =>
          if is_valid_email (pyStrip email) then
            match S.isSub email st with
            | .error _ =>
              (some (errObj "Failed to process subscription", 500), st, [.isSub email])
            | .ok true =>
              (some (okObj "You are already subscribed to the newsletter", 200), st,
                [.isSub email])
            | .ok false =>
              match S.addSub email st with
              | .error _ =>
                (some (errObj "Failed to process subscription", 500), st,
                  [.isSub email, .addSub email])
              | .ok (true, st₂) =>
                (some (okObj "Successfully subscribed to the newsletter", 201), st₂,
                  [.isSub email, .addSub email])
              | .ok (false, st₂) =>
                (none, st₂, [.isSub email, .addSub email])
          else (some (errObj "Invalid email format", 400), st, [])
        | some _ => (some (errObj "Email must be a string", 400), st, [])
      | _ => (some (errObj "Request body must be a JSON object", 400), st, [])

/-- The response envelope built by `format_response`. -/
structure LambdaResponse where
  statusCode : Nat
  headers : List (String × String)
  body : String
deriving Repr, DecidableEq

/-- `format_response` from `lambda_function.py`. -/
def format_response (body : Json) (statusCode : Nat) : LambdaResponse :=
  ⟨statusCode,
    [("Content-Type", "application/json"), ("Access-Control-Allow-Origin", "*")],
    jsonDumps body⟩

/-- The tail of `lambda_handler` once `json_data` is resolved (source
lines 29 through 70 of `lambda_function.py`): shape validation, email
validation, then the storage section whose try block maps any store
exception to the 500 subscription failure. -/
def lambdaProcess {σ : Type} (S : StoreIface σ) (json_data : Json) (st : σ) :
    LambdaResponse × σ × List StoreCall :=
  match json_data with
  | .obj kvs =>
    match pyDictGet kvs "email" with
    | none => (format_response (errObj "Missing required field: email") 400, st, [])
    | some (.str email) =>
      if is_valid_email (pyStrip email) then
        match S.isSub email st with
        | .error _ =>
          (format_response (errObj "Failed to process subscription") 500, st, [.isSub email])
        | .ok true =>
          (format_response (okObj "You are already subscribed to the newsletter") 200, st,
            [.isSub email])
        | .ok false =>
          match S.addSub email st with
          | .error _ =>
            (format_response (errObj "Failed to process subscription") 500, st,
              [.isSub email, .addSub email])
          | .ok (true, st₂) =>
            (format_response (okObj "Successfully subscribed to the newsletter") 201, st₂,
              [.isSub email, .addSub email])
          | .ok (false, st₂) =>
            (format_response (errObj "Failed to process subscription") 500, st₂,
              [.isSub email, .addSub email])
      else (format_response (errObj "Invalid email format") 400, st, [])
    | some _ => (format_response (errObj "Email must be a string") 400, st, [])
  | _ => (format_response (errObj "Request body must be a JSON object") 400, st, [])

/-- `lambda_handler` from `lambda_function.py`. `parse` is `json.loads`
on a string body (`.error` is a `JSONDecodeError`). The `.error` arms of
`pyContains` and `pyGetItem` are the exceptions reaching the outermost
except clause, which maps them to the generic 500. -/
def lambda_handler {σ : Type} (parse : String → Except Unit Json) (S : StoreIface σ)
    (event : Json) (st : σ) : LambdaResponse × σ × List StoreCall :=
  match pyContains event "body" with
  | .error _ => (format_response (errObj "Internal server error") 500, st, [])
  | .ok true =>
    match pyGetItem event "body" with
    | .error _ => (format_response (errObj "Internal server error") 500, st, [])
    | .ok .null => (format_response (errObj "Request body is required") 400, st, [])
    | .ok (.str s) =>
      match parse s with
      | .error _ => (format_response (errObj "Invalid JSON format") 400, st, [])
      | .ok j => lambdaProcess S j st
    | .ok b => lambdaProcess S b st
  | .ok false => lambdaProcess S event st

/-- `get_storage`'s possible results. -/
inductive StorageChoice where
  | memory : StorageChoice
  | dynamodb : StorageChoice
deriving Repr, DecidableEq

/-- `get_storage` from both entry points: read `STORAGE_TYPE` (default
`"dynamodb"` when unset), lowercase it, select the implementation, and
raise `ValueError` on anything else. -/
def get_storage (env : Option String) : Except String StorageChoice :=
  let storage_type := pyLower (env.getD "dynamodb")
  if storage_type == "memory" then .ok .memory
  else if storage_type == "dynamodb" then .ok .dynamodb
  else .error ("Unsupported storage type: " ++ storage_type)

/-- A parse oracle used when instantiating the lambda adapter at
concrete events that never parse a string body. -/
def parse0 : String → Except Unit Json := fun _ => .error ()

/-- The fresh Volatile store. -/
def mem0 : MemState := ⟨0, 0, []⟩

/-- A fresh (empty-table) Durable store. -/
def dyn0 : DynamoState := ⟨0, 0, []⟩

/-- A store-call trace an adapter can emit from start state `st`: nothing,
one existence check, or an existence check that came back negative
followed by exactly one insert of the same email. -/
def storeTrace {σ : Type} (S : StoreIface σ) (st : σ) (tr : List StoreCall) : Prop :=
  tr = [] ∨
    ∃ e, tr = [.isSub e] ∨ (tr = [.isSub e, .addSub e] ∧ S.isSub e st = .ok false)

example : is_valid_email "a@b.co" = true := by decide
example : is_valid_email "" = false := by decide
example : is_valid_email "ab.com" = false := by decide
example : is_valid_email "a@bcom" = false := by decide
example : is_valid_email "a@b.c" = false := by decide
example : is_valid_email "first.last+tag@mail.example.org" = true := by decide
example : pyNormalize "  Foo@BAR.com " = "foo@bar.com" := by decide

example : is_valid_email "a@b.co\n" = true := by decide
example : is_valid_email "a@b.co\n\n" = false := by decide
example : get_storage (some "MEMORY") = .ok .memory := by rfl
example : get_storage (some "redis") = .error "Unsupported storage type: redis" := by rfl
example :
    subscribe_newsletter (dynamoIface true false)
      ⟨true, .ok (Json.obj [("email", Json.str "new@example.com")])⟩ dyn0 =
    (none, dyn0, [.isSub "new@example.com", .addSub "new@example.com"]) := by rfl

/-- Inserting a key makes `dictContains` find it. -/
theorem dictContains_dictInsert_self {α : Type} (k : String) (v : α)
    (l : List (String × α)) : dictContains k (dictInsert k v l) = true := by
  induction l with
  | nil => simp [dictInsert, dictContains]
  | cons p t ih =>
    obtain ⟨k₂, v₂⟩ := p
    by_cases h : (k₂ == k) = true
    · simp [dictInsert, h, dictContains]
    · simp only [dictInsert, h, if_false, Bool.false_eq_true, dictContains, List.any_cons,
        Bool.or_eq_true] at ih ⊢
      exact Or.inr ih

/-- C1: the claim says a validated, not-yet-subscribed request whose
`add_subscriber` returns `False` gets the 500 subscription-failure
response from the Flask adapter. The source's `else` branch only logs
and falls through, so the view function produces no response at all
(`none`); the 500 return exists only in the `except` branch. This
theorem evaluates the adapter at such a request. -/
theorem flask_add_failure_returns_no_response :
    subscribe_newsletter (dynamoIface true false)
      ⟨true, .ok (Json.obj [("email", Json.str "new@example.com")])⟩ dyn0 =
    (none, dyn0, [.isSub "new@example.com", .addSub "new@example.com"]) := by
  rfl

/-- C3 counterexample: the claim permits no trailing characters beyond
the grammar, but the engine's end anchor also matches just before one
final newline, so `"a@b.co\n"` is accepted although the anchored body
pattern alone (`matchCore`) rejects it. -/
theorem is_valid_email_trailing_newline :
    is_valid_email "a@b.co\n" = true ∧ matchCore "a@b.co\n".data = false := by
  decide

/-- C4: `"  Foo@BAR.com "` and `"foo@bar.com"` address the same
subscriber record in either store — after `add_subscriber` with one,
`is_subscribed` with the other holds — and both normalise to the single
key `"foo@bar.com"`. -/
theorem normalization_same_subscriber (m : MemState) (d : DynamoState) :
    InMemoryStorage.is_subscribed "foo@bar.com"
      (InMemoryStorage.add_subscriber "  Foo@BAR.com " m).2 = true ∧
    InMemoryStorage.is_subscribed "  Foo@BAR.com "
      (InMemoryStorage.add_subscriber "foo@bar.com" m).2 = true ∧
    DynamoDBStorage.is_subscribed false "foo@bar.com"
      (DynamoDBStorage.add_subscriber false "  Foo@BAR.com " d).2 = true ∧
    DynamoDBStorage.is_subscribed false "  Foo@BAR.com "
      (DynamoDBStorage.add_subscriber false "foo@bar.com" d).2 = true ∧
    pyNormalize "  Foo@BAR.com " = "foo@bar.com" ∧
    pyNormalize "foo@bar.com" = "foo@bar.com" := by
  have h₁ : pyNormalize "  Foo@BAR.com " = "foo@bar.com" := by decide
  have h₂ : pyNormalize "foo@bar.com" = "foo@bar.com" := by decide
  refine ⟨?_, ?_, ?_, ?_, h₁, h₂⟩
  · simp [InMemoryStorage.is_subscribed, InMemoryStorage.add_subscriber, h₁, h₂,
      dictContains_dictInsert_self]
  · simp [InMemoryStorage.is_subscribed, InMemoryStorage.add_subscriber, h₁, h₂,
      dictContains_dictInsert_self]
  · simp [DynamoDBStorage.is_subscribed, DynamoDBStorage.add_subscriber, h₁, h₂,
      List.filter_append]
  · simp [DynamoDBStorage.is_subscribed, DynamoDBStorage.add_subscriber, h₁, h₂,
      List.filter_append]

/-- C6: when the underlying DynamoDB call raises, `is_subscribed`
returns `false` and `add_subscriber` returns `false`; both methods are
total functions of the fault flag, so no exception ever propagates. -/
theorem dynamodb_fail_closed (email : String) (st : DynamoState) :
    DynamoDBStorage.is_subscribed true email st = false ∧
    (DynamoDBStorage.add_subscriber true email st).1 = false :=
  ⟨rfl, rfl⟩

/-- C8 counterexample: `"MEMORY"` is outside the literal set
`\x7bmemory, dynamodb\x7d`, yet `get_storage` lowercases the value first
and returns the Volatile store instead of raising. -/
theorem get_storage_uppercase_memory :
    get_storage (some "MEMORY") = .ok .memory ∧
    "MEMORY" ≠ "memory" ∧ "MEMORY" ≠ "dynamodb" :=
  ⟨rfl, by decide, by decide⟩

/-- C8 amended: the factory matches `STORAGE_TYPE` case-insensitively —
Volatile when the lowercased value is `"memory"`, Durable when it is
`"dynamodb"` or the variable is unset, and a `ValueError` exactly when
the lowercased value is outside the supported set. -/
theorem get_storage_cases :
    get_storage none = .ok .dynamodb ∧
    (∀ s, pyLower s = "memory" → get_storage (some s) = .ok .memory) ∧
    (∀ s, pyLower s = "dynamodb" → get_storage (some s) = .ok .dynamodb) ∧
    (∀ s, pyLower s ≠ "memory" → pyLower s ≠ "dynamodb" →
      get_storage (some s) = .error ("Unsupported storage type: " ++ pyLower s)) := by
  refine ⟨rfl, ?_, ?_, ?_⟩
  · intro s h
    simp [get_storage, h]
  · intro s h
    simp [get_storage, h]
  · intro s h₁ h₂
    simp [get_storage, h₁, h₂]

/-- C8 witness: the amended cases at concrete values. -/
theorem get_storage_cases_witness :
    get_storage (some "MEMORY") = .ok .memory ∧
    get_storage (some "DynamoDB") = .ok .dynamodb ∧
    get_storage (some "redis") = .error ("Unsupported storage type: " ++ pyLower "redis") :=
  ⟨get_storage_cases.2.1 "MEMORY" (by decide),
   get_storage_cases.2.2.1 "DynamoDB" (by decide),
   get_storage_cases.2.2.2 "redis" (by decide) (by decide)⟩

/-- C2: against a fresh Volatile store, the workflow run twice with the
same (valid) email yields 201 `subscribed` then 200 `already_subscribed`,
and afterwards the store holds exactly one record under the normalised
email key. -/
theorem lambda_handler_idempotent_volatile (e : String)
    (parse : String → Except Unit Json) (h : is_valid_email (pyStrip e) = true) :
    (lambda_handler parse memIface (Json.obj [("email", Json.str e)]) mem0).1.statusCode = 201 ∧
    (lambda_handler parse memIface (Json.obj [("email", Json.str e)]) mem0).1.body =
      jsonDumps (okObj "Successfully subscribed to the newsletter") ∧
    (lambda_handler parse memIface (Json.obj [("email", Json.str e)])
        (lambda_handler parse memIface (Json.obj [("email", Json.str e)]) mem0).2.1).1.statusCode
      = 200 ∧
    (lambda_handler parse memIface (Json.obj [("email", Json.str e)])
        (lambda_handler parse memIface (Json.obj [("email", Json.str e)]) mem0).2.1).1.body =
      jsonDumps (okObj "You are already subscribed to the newsletter") ∧
    ((lambda_handler parse memIface (Json.obj [("email", Json.str e)])
          (lambda_handler parse memIface (Json.obj [("email", Json.str e)]) mem0).2.1).2.1.subscribers.filter
        fun kv => kv.1 == pyNormalize e).length = 1 := by
  have h₁ : lambda_handler parse memIface (Json.obj [("email", Json.str e)]) mem0 =
      (format_response (okObj "Successfully subscribed to the newsletter") 201,
        ⟨1, 0, [(pyNormalize e, ⟨0, 0, "active"⟩)]⟩,
        [.isSub e, .addSub e]) := by
    simp [lambda_handler, lambdaProcess, pyContains, pyDictGet, memIface,
      InMemoryStorage.is_subscribed, InMemoryStorage.add_subscriber, dictContains,
      dictInsert, h, mem0]
  have h₂ : lambda_handler parse memIface (Json.obj [("email", Json.str e)])
      (⟨1, 0, [(pyNormalize e, ⟨0, 0, "active"⟩)]⟩ : MemState) =
      (format_response (okObj "You are already subscribed to the newsletter") 200,
        ⟨1, 0, [(pyNormalize e, ⟨0, 0, "active"⟩)]⟩,
        [.isSub e]) := by
    simp [lambda_handler, lambdaProcess, pyContains, pyDictGet, memIface,
      InMemoryStorage.is_subscribed, InMemoryStorage.add_subscriber, dictContains, h]
  rw [h₁]
  simp only [h₂]
  refine ⟨rfl, rfl, rfl, rfl, ?_⟩
  simp [format_response]

/-- C2 witness: the idempotence run at the concrete email `a@b.com`. -/
theorem lambda_handler_idempotent_volatile_witness :
    (lambda_handler parse0 memIface (Json.obj [("email", Json.str "a@b.com")]) mem0).1.statusCode
      = 201 ∧
    (lambda_handler parse0 memIface (Json.obj [("email", Json.str "a@b.com")]) mem0).1.body =
      jsonDumps (okObj "Successfully subscribed to the newsletter") ∧
    (lambda_handler parse0 memIface (Json.obj [("email", Json.str "a@b.com")])
        (lambda_handler parse0 memIface (Json.obj [("email", Json.str "a@b.com")]) mem0).2.1).1.statusCode
      = 200 ∧
    (lambda_handler parse0 memIface (Json.obj [("email", Json.str "a@b.com")])
        (lambda_handler parse0 memIface (Json.obj [("email", Json.str "a@b.com")]) mem0).2.1).1.body =
      jsonDumps (okObj "You are already subscribed to the newsletter") ∧
    ((lambda_handler parse0 memIface (Json.obj [("email", Json.str "a@b.com")])
          (lambda_handler parse0 memIface (Json.obj [("email", Json.str "a@b.com")]) mem0).2.1).2.1.subscribers.filter
        fun kv => kv.1 == pyNormalize "a@b.com").length = 1 :=
  lambda_handler_idempotent_volatile "a@b.com" parse0 (by decide)

/-- C10: an event that does not support the membership test
(`None`, a number, a boolean) makes the outermost except clause answer
500 `Internal server error`, while an array that does not contain the
string `"body"` gets the 400 `Request body must be a JSON object`
validation answer instead. -/
theorem lambda_handler_membership_fault {σ : Type} (parse : String → Except Unit Json)
    (S : StoreIface σ) (st : σ) (n : Int) (b : Bool) (xs : List Json) :
    (lambda_handler parse S Json.null st).1 =
      format_response (errObj "Internal server error") 500 ∧
    (lambda_handler parse S (Json.num n) st).1 =
      format_response (errObj "Internal server error") 500 ∧
    (lambda_handler parse S (Json.bool b) st).1 =
      format_response (errObj "Internal server error") 500 ∧
    (Json.str "body" ∉ xs →
      (lambda_handler parse S (Json.arr xs) st).1 =
        format_response (errObj "Request body must be a JSON object") 400) := by
  refine ⟨rfl, rfl, rfl, ?_⟩
  intro hmem
  have hc : pyContains (Json.arr xs) "body" = .ok false := by
    simp only [pyContains, Except.ok.injEq]
    rw [List.any_eq_false]
    intro j hj
    cases j with
    | str t =>
      simp only [beq_iff_eq]
      intro ht
      rw [ht] at hj
      exact hmem hj
    | null => simp
    | bool _ => simp
    | num _ => simp
    | arr _ => simp
    | obj _ => simp
  unfold lambda_handler
  rw [hc]
  rfl

/-- C10 witness: the array branch at the empty array. -/
theorem lambda_handler_membership_fault_witness :
    (lambda_handler parse0 memIface (Json.arr []) mem0).1 =
      format_response (errObj "Request body must be a JSON object") 400 :=
  (lambda_handler_membership_fault parse0 memIface mem0 0 true []).2.2.2 (by simp)

/-- Every branch of `lambdaProcess` answers through `format_response`. -/
theorem lambdaProcess_shape {σ : Type} (S : StoreIface σ) (j : Json) (st : σ) :
    ∃ b c, (lambdaProcess S j st).1 = format_response b c := by
  unfold lambdaProcess
  repeat' split
  all_goals exact ⟨_, _, rfl⟩

/-- Every branch of `lambda_handler` answers through `format_response`. -/
theorem lambda_handler_shape {σ : Type} (parse : String → Except Unit Json)
    (S : StoreIface σ) (event : Json) (st : σ) :
    ∃ b c, (lambda_handler parse S event st).1 = format_response b c := by
  unfold lambda_handler
  repeat' split
  all_goals first
    | exact ⟨_, _, rfl⟩
    | exact lambdaProcess_shape S _ st

/-- C5: for every event value the Lambda adapter is a total function —
no fault escapes — and its response always has the fixed envelope shape:
a status code, the two headers, and a JSON-encoded string body. -/
theorem lambda_handler_total_shape {σ : Type} (parse : String → Except Unit Json)
    (S : StoreIface σ) (event : Json) (st : σ) :
    ∃ b c, (lambda_handler parse S event st).1 = format_response b c ∧
      (lambda_handler parse S event st).1.statusCode = c ∧
      (lambda_handler parse S event st).1.headers =
        [("Content-Type", "application/json"), ("Access-Control-Allow-Origin", "*")] ∧
      (lambda_handler parse S event st).1.body = jsonDumps b := by
  obtain ⟨b, c, h⟩ := lambda_handler_shape parse S event st
  exact ⟨b, c, h, by rw [h]; rfl, by rw [h]; rfl, by rw [h]; rfl⟩

/-- A 400/415 answer of the Flask adapter leaves the store untouched. -/
theorem flask_frame {σ : Type} (S : StoreIface σ) (req : FlaskRequest) (st : σ) :
    ∀ b c, (subscribe_newsletter S req st).1 = some (b, c) → c = 400 ∨ c = 415 →
      (subscribe_newsletter S req st).2 = (st, []) := by
  unfold subscribe_newsletter
  repeat' split
  all_goals intro b c h hc
  all_goals simp_all
  all_goals obtain ⟨-, rfl⟩ := h
  all_goals omega

/-- A 400 answer of the Lambda adapter leaves the store untouched. -/
theorem lambda_frame {σ : Type} (parse : String → Except Unit Json) (S : StoreIface σ)
    (event : Json) (st : σ) :
    (lambda_handler parse S event st).1.statusCode = 400 →
      (lambda_handler parse S event st).2 = (st, []) := by
  unfold lambda_handler lambdaProcess
  repeat' split
  all_goals intro h
  all_goals simp_all [format_response]

/-- The Flask adapter only emits traces of the `storeTrace` shape. -/
theorem flask_trace {σ : Type} (S : StoreIface σ) (req : FlaskRequest) (st : σ) :
    storeTrace S st (subscribe_newsletter S req st).2.2 := by
  unfold subscribe_newsletter
  repeat' split
  all_goals first
    | exact Or.inl rfl
    | exact Or.inr ⟨_, Or.inl rfl⟩
    | exact Or.inr ⟨_, Or.inr ⟨rfl, by assumption⟩⟩

/-- The Lambda adapter only emits traces of the `storeTrace` shape. -/
theorem lambda_trace {σ : Type} (parse : String → Except Unit Json) (S : StoreIface σ)
    (event : Json) (st : σ) :
    storeTrace S st (lambda_handler parse S event st).2.2 := by
  unfold lambda_handler lambdaProcess
  repeat' split
  all_goals first
    | exact Or.inl rfl
    | exact Or.inr ⟨_, Or.inl rfl⟩
    | exact Or.inr ⟨_, Or.inr ⟨rfl, by assumption⟩⟩

/-- C7: a request failing validation (400, or 415 for the wrong content
type) leaves the store state unchanged with no store call in either
adapter, and every trace an adapter emits is empty, one existence check,
or a negative existence check followed by exactly one insert. -/
theorem adapters_validation_frame {σ : Type} (S : StoreIface σ) (req : FlaskRequest)
    (st : σ) (parse : String → Except Unit Json) (event : Json) :
    (∀ b c, (subscribe_newsletter S req st).1 = some (b, c) → c = 400 ∨ c = 415 →
      (subscribe_newsletter S req st).2 = (st, [])) ∧
    ((lambda_handler parse S event st).1.statusCode = 400 →
      (lambda_handler parse S event st).2 = (st, [])) ∧
    storeTrace S st (subscribe_newsletter S req st).2.2 ∧
    storeTrace S st (lambda_handler parse S event st).2.2 :=
  ⟨flask_frame S req st, lambda_frame parse S event st,
    flask_trace S req st, lambda_trace parse S event st⟩

/-- C7 witness: a 415 Flask request and a 400 Lambda event leave the
fresh store untouched. -/
theorem adapters_validation_frame_witness :
    (subscribe_newsletter memIface ⟨false, .error ()⟩ mem0).2 = (mem0, []) ∧
    (lambda_handler parse0 memIface (Json.arr []) mem0).2 = (mem0, []) :=
  ⟨(adapters_validation_frame memIface ⟨false, .error ()⟩ mem0 parse0 (Json.arr [])).1
      (errObj "Content-Type must be application/json") 415 rfl (Or.inr rfl),
   (adapters_validation_frame memIface ⟨false, .error ()⟩ mem0 parse0 (Json.arr [])).2.1 rfl⟩

/-- `matchDomain` decides membership in `[a-zA-Z0-9.-]+\.[a-zA-Z]{2,}`. -/
theorem matchDomain_iff (l : List Char) :
    matchDomain l = true ↔
      ∃ ds ts, l = ds ++ '.' :: ts ∧ ds ≠ [] ∧ ds.all isDomainChar = true ∧
        2 ≤ ts.length ∧ ts.all isAsciiAlpha = true := by
  rw [matchDomain, List.any_eq_true]
  constructor
  · rintro ⟨j, hj, hcond⟩
    rcases hdrop : l.drop j with _ | ⟨c, t⟩ <;> rw [hdrop] at hcond
    · simp at hcond
    · simp only [Bool.and_eq_true, Bool.not_eq_true', List.isEmpty_eq_false, beq_iff_eq,
        matchTld, decide_eq_true_eq] at hcond
      obtain ⟨⟨hne, hall⟩, hc, hlen, hts⟩ := hcond
      subst hc
      refine ⟨l.take j, t, ?_, hne, hall, hlen, hts⟩
      conv_lhs => rw [← List.take_append_drop j l]
      rw [hdrop]
  · rintro ⟨ds, ts, rfl, hne, hall, hlen, hts⟩
    refine ⟨ds.length, ?_, ?_⟩
    · rw [List.mem_range, List.length_append, List.length_cons]
      omega
    · rw [List.take_left, List.drop_left]
      simp [hne, hall, matchTld, hlen, hts]

/-- `matchCore` decides membership in the full anchored body pattern. -/
theorem matchCore_iff_grammar (l : List Char) :
    matchCore l = true ↔ EmailGrammar l := by
  rw [matchCore, List.any_eq_true, EmailGrammar]
  constructor
  · rintro ⟨i, hi, hcond⟩
    rcases hdrop : l.drop i with _ | ⟨c, ys⟩ <;> rw [hdrop] at hcond
    · simp at hcond
    · simp only [Bool.and_eq_true, Bool.not_eq_true', List.isEmpty_eq_false, beq_iff_eq]
        at hcond
      obtain ⟨⟨hne, hall⟩, hc, hdom⟩ := hcond
      subst hc
      rw [matchDomain_iff] at hdom
      obtain ⟨ds, ts, rfl, hdne, hdall, hlen, hts⟩ := hdom
      refine ⟨l.take i, ds, ts, ?_, hne, hall, hdne, hdall, hlen, hts⟩
      conv_lhs => rw [← List.take_append_drop i l]
      rw [hdrop]
  · rintro ⟨xs, ds, ts, rfl, hne, hall, hdne, hdall, hlen, hts⟩
    refine ⟨xs.length, ?_, ?_⟩
    · rw [List.mem_range, List.length_append, List.length_cons]
      omega
    · rw [List.take_left, List.drop_left]
      simp only [Bool.and_eq_true, Bool.not_eq_true', List.isEmpty_eq_false, beq_self_eq_true,
        true_and]
      refine ⟨⟨hne, hall⟩, ?_⟩
      rw [matchDomain_iff]
      exact ⟨ds, ts, rfl, hdne, hdall, hlen, hts⟩

/-- C3 amended: `is_valid_email` returns true iff the string matches the
anchored grammar, or is such a match followed by exactly one trailing
newline (the engine's end anchor also matches just before a final
newline); in particular the empty string, strings without `@`, and
strings missing the domain dot are rejected. -/
theorem is_valid_email_iff_grammar (s : String) :
    is_valid_email s = true ↔
      EmailGrammar s.data ∨ ∃ l, EmailGrammar l ∧ s.data = l ++ ['\n'] := by
  rw [is_valid_email, Bool.or_eq_true, matchCore_iff_grammar]
  apply or_congr Iff.rfl
  rcases List.eq_nil_or_concat' s.data with h | ⟨L, a, h⟩ <;> rw [h]
  · simp
  · rw [List.getLast?_concat, List.dropLast_concat]
    simp only [Bool.and_eq_true, beq_iff_eq, matchCore_iff_grammar]
    constructor
    · rintro ⟨rfl, hg⟩
      exact ⟨L, hg, rfl⟩
    · rintro ⟨l, hg, heq⟩
      obtain ⟨hL, ha⟩ := List.append_inj' heq (by simp)
      obtain rfl := hL
      simp only [List.cons.injEq] at ha
      exact ⟨ha.1, hg⟩
